import Mathlib

/-!
Shallow embedding of `src/lcd_clock.cpp`: the debounced keypad scanner
(`keypadScan`) and the main-loop mode/entry state machine (`main`'s
while-loop body), together with the Normal-mode rendering formulas.

Hardware I/O (GPIO reads, LCD writes, the RTC, the temperature sensor) is
abstracted: the scanner takes the matched (row, col) coordinate as an
`Option` input, timers are modelled by an explicit millisecond reading that
each loop iteration advances by an input `dt`, and clock commits are
recorded in a list instead of being written to the RTC.
-/

namespace LCDClock

/-! ### Debounced matrix scanner (`keypadScan`, lines 95-135) -/

/-- Source constant `debounce_time` (line 101), in milliseconds. -/
def debounce_time : Nat := 500

/-- Keypad character table `key_map` (lines 61-66). -/
def key_map : List (List Char) :=
  [['1', '2', '3', 'A'],
   ['4', '5', '6', 'P'],
   ['7', '8', '9', 'M'],
   ['*', '0', '#', 'D']]

/-- Lookup `key_map[r][c]`; out-of-range indices (never produced by the
scan loop) default to a space. -/
def keyAt (r c : Nat) : Char := (key_map.getD r []).getD c ' '

/-- The scanner's persistent state: the `static int last_key[2]` array
(-1 meaning "none") and the reading of the `static Timer debounceTimer`
in milliseconds at the moment line 126 evaluates `read_ms()`. -/
structure ScanState where
  last0 : Int
  last1 : Int
  elapsed : Nat
deriving DecidableEq

/-- One call of `keypadScan` (lines 95-135).  The row strobe / `col_scan`
loop is abstracted into the `pressed` argument: `none` when no column reads
low for any row, otherwise the first matched (row, col) pair.  On `none`
the last-key memory is cleared and `'x'` returned (lines 119-123); on a
match the press is swallowed when the coordinate equals the remembered one
OR the debounce timer is still below the threshold (line 126); otherwise
the coordinate is recorded, the timer reset, and the mapped character
returned (lines 131-134). -/
def keypadScan : Option (Nat × Nat) → ScanState → Char × ScanState
  | none, s => ('x', { s with last0 := -1, last1 := -1 })
  | some (r, c), s =>
      if (s.last0 = (r : Int) ∧ s.last1 = (c : Int)) ∨ s.elapsed < debounce_time then
        ('x', s)
      else
        (keyAt r c, { last0 := (r : Int), last1 := (c : Int), elapsed := 0 })

/-! ### Mode and entry-field constants (lines 138-146) -/

def HOUR : Nat := 0
def MIN : Nat := 1
def AM_PM : Nat := 2
def ENTER : Nat := 3

def NORMAL_MODE : Nat := 0
def SET_MODE : Nat := 1
def ERROR_MODE : Nat := 2

/-! ### Main-loop state -/

/-- The mutable state of `main`'s while-loop: operating mode, entry field,
the `index` cursor and `current_entry` buffer, the working `hr`/`min`
variables, the shared `Timer` reading in milliseconds, and the
`update_LCD` dirty flag.  `commits` records every `set_time` call (hour,
minute, second), most recent first. -/
structure LoopState where
  mode : Nat
  entry_mode : Nat
  index : Nat
  e0 : Char
  e1 : Char
  hr : Int
  min : Int
  timerMs : Nat
  update_LCD : Bool
  commits : List (Int × Int × Int)
deriving DecidableEq

/-- The expression `(current_entry[0] - '0')*10 + (current_entry[1] - '0')`
as C `int` arithmetic on ASCII codes (lines 284 and 293). -/
def parseEntry (c0 c1 : Char) : Int :=
  ((c0.toNat : Int) - 48) * 10 + ((c1.toNat : Int) - 48)

/-- Time passing between two reads of the shared `timer` (the loop's real
duration, dominated by the scanner's settle sleeps). -/
def tick (dt : Nat) (s : LoopState) : LoopState :=
  { s with timerMs := s.timerMs + dt }

/-- The `'#'` branch of the key-press handler (lines 282-311): parse and
validate the current entry field.  `hr`/`min` are assigned the parsed value
BEFORE the range check, exactly as in the source; a failed check resets the
timer and enters `ERROR_MODE`, a passed one advances `entry_mode`. -/
def hashStep (s : LoopState) : LoopState :=
  if s.entry_mode = HOUR then
    if parseEntry s.e0 s.e1 < 1 ∨ parseEntry s.e0 s.e1 > 12 then
      { s with hr := parseEntry s.e0 s.e1, timerMs := 0, mode := ERROR_MODE }
    else
      { s with hr := parseEntry s.e0 s.e1, entry_mode := s.entry_mode + 1 }
  else if s.entry_mode = MIN then
    if parseEntry s.e0 s.e1 > 59 then
      { s with min := parseEntry s.e0 s.e1, timerMs := 0, mode := ERROR_MODE }
    else
      { s with min := parseEntry s.e0 s.e1, entry_mode := s.entry_mode + 1 }
  else if s.entry_mode = AM_PM then
    if (s.e0 ≠ 'A' ∧ s.e0 ≠ 'P') ∨ s.e1 ≠ 'M' then
      { s with timerMs := 0, mode := ERROR_MODE }
    else
      { s with hr := if s.e0 = 'P' ∧ s.hr ≠ 12 then s.hr + 12 else s.hr,
               entry_mode := s.entry_mode + 1 }
  else s

/-- The key-press interpretation section (lines 258-317).  Keys are ignored
when the scan returned `'x'` or the mode is `ERROR_MODE`; `'*'` re-enters
Set mode at the Hour field; `'D'` aborts to Normal; in Set mode a non-`'#'`
key is written at the cursor slot and the cursor flipped, while `'#'` runs
`hashStep` and then unconditionally marks the display dirty and resets the
entry buffer (lines 313-314). -/
def keyStep (key : Char) (s : LoopState) : LoopState :=
  if key ≠ 'x' ∧ s.mode ≠ ERROR_MODE then
    if key = '*' then
      { s with mode := SET_MODE, entry_mode := HOUR, update_LCD := true,
               index := 0, e0 := '_', e1 := '_' }
    else if key = 'D' then
      { s with mode := NORMAL_MODE, entry_mode := HOUR, e0 := '_', e1 := '_' }
    else if s.mode = SET_MODE then
      if key ≠ '#' then
        { s with e0 := if s.index = 0 then key else s.e0,
                 e1 := if s.index = 0 then s.e1 else key,
                 index := if s.index = 0 then 1 else 0,
                 update_LCD := true }
      else
        { hashStep s with update_LCD := true, e0 := '_', e1 := '_' }
    else s
  else s

/-- The time-update section (lines 325-334): when `entry_mode` has reached
`ENTER`, commit (hr, min, 0) to the clock, return to Normal mode at the
Hour field and reset the entry buffer. -/
def commitStep (s : LoopState) : LoopState :=
  if s.entry_mode = ENTER then
    { s with commits := (s.hr, s.min, 0) :: s.commits,
             mode := NORMAL_MODE, entry_mode := HOUR, e0 := '_', e1 := '_' }
  else s

/-- The screen-update section (lines 351-382), an `else if` chain: the
Normal-mode 1-second render (which resets the timer), the Set/Error dirty
render (which clears the flag), and the Error 2-second timeout (which
resets the timer, steps `mode` down by one and resets the cursor). -/
def displayStep (s : LoopState) : LoopState :=
  if s.mode = NORMAL_MODE ∧ 1000 ≤ s.timerMs then
    { s with timerMs := 0 }
  else if SET_MODE ≤ s.mode ∧ s.update_LCD = true then
    { s with update_LCD := false }
  else if s.mode = ERROR_MODE ∧ 2000 ≤ s.timerMs then
    { s with timerMs := 0, mode := s.mode - 1, index := 0, update_LCD := true }
  else s

/-- One iteration of the while-loop (lines 231-383): time passes during the
scan, then the key handler, the commit check and the display scheduler run
in source order.  `key` is what `keypadScan` returned this iteration. -/
def loopStep (key : Char) (dt : Nat) (s : LoopState) : LoopState :=
  displayStep (commitStep (keyStep key (tick dt s)))

/-- The state after `main`'s set-up section (lines 203-228): Normal mode,
Hour field, blank entries, `hr = min = 0`, timer just started, no pending
redraw, nothing committed. -/
def initState : LoopState :=
  { mode := NORMAL_MODE, entry_mode := HOUR, index := 0, e0 := '_', e1 := '_',
    hr := 0, min := 0, timerMs := 0, update_LCD := false, commits := [] }

/-- Run a sequence of loop iterations; each input is the scanned key and
the milliseconds elapsed since the previous iteration. -/
def run (inputs : List (Char × Nat)) (s : LoopState) : LoopState :=
  inputs.foldl (fun t i => loopStep i.1 i.2 t) s

/-! ### Normal-mode rendering formulas (lines 356-360) -/

/-- The hour printed by the Normal-mode render:
`(tm_hour % 12 == 0) ? 12 : tm_hour % 12` (line 357). -/
def displayHour (h : Nat) : Nat := if h % 12 = 0 then 12 else h % 12

/-- The AM/PM suffix printed by the Normal-mode render:
`(tm_hour > 12) ? "PM" : "AM"` (line 360). -/
def ampmLabel (h : Nat) : String := if 12 < h then "PM" else "AM"

/-! ### Validation predicate, buffer alphabet and loop invariants -/

/-- The validation rule the `'#'` handler applies to the current entry
field: the negation of the error conditions at lines 285, 294 and 302. -/
def fieldValid (em : Nat) (c0 c1 : Char) : Prop :=
  if em = HOUR then 1 ≤ parseEntry c0 c1 ∧ parseEntry c0 c1 ≤ 12
  else if em = MIN then parseEntry c0 c1 ≤ 59
  else if em = AM_PM then (c0 = 'A' ∨ c0 = 'P') ∧ c1 = 'M'
  else True

instance (em : Nat) (c0 c1 : Char) : Decidable (fieldValid em c0 c1) := by
  unfold fieldValid
  infer_instance

/-- Characters that can occupy a `current_entry` slot in a reachable state:
the blank sentinel and the keypad characters the writer at line 278 can
store (digits and the letters A, P, M; the keys '*', 'D', '#' and the
no-key value 'x' never reach that assignment). -/
def bufChar (c : Char) : Prop :=
  c ∈ (['_', '0', '1', '2', '3', '4', '5', '6', '7', '8', '9', 'A', 'P', 'M'] : List Char)

instance (c : Char) : Decidable (bufChar c) := by
  unfold bufChar
  infer_instance

/-- Loop invariant, preserved by every iteration: the entry field is never
left at `ENTER`; in Error mode the display is not dirty and the entry
buffer is blank; once the Hour (resp. Minute) field has been passed, the
working `hr` (resp. `min`) variable holds a value that passed that field's
validation; and every recorded commit carries a 24-hour value in 1..23, a
minute value that passed the `≤ 59` check, and second 0. -/
def Inv (s : LoopState) : Prop :=
  s.entry_mode < 3 ∧
  (s.mode = ERROR_MODE → s.update_LCD = false ∧ s.e0 = '_' ∧ s.e1 = '_') ∧
  (s.entry_mode = MIN → 1 ≤ s.hr ∧ s.hr ≤ 12) ∧
  (s.entry_mode = AM_PM → 1 ≤ s.hr ∧ s.hr ≤ 12 ∧ s.min ≤ 59) ∧
  (∀ c ∈ s.commits, 1 ≤ c.1 ∧ c.1 ≤ 23 ∧ c.2.1 ≤ 59 ∧ c.2.2 = 0)

instance (s : LoopState) : Decidable (Inv s) := by
  unfold Inv
  infer_instance

/-- Intermediate invariant holding after the key-handling section of an
iteration (the entry field may momentarily sit at `ENTER`, carrying
commit-ready values). -/
def InvPost (s : LoopState) : Prop :=
  s.entry_mode ≤ 3 ∧
  (s.mode = ERROR_MODE → s.e0 = '_' ∧ s.e1 = '_') ∧
  (s.entry_mode = MIN → 1 ≤ s.hr ∧ s.hr ≤ 12) ∧
  (s.entry_mode = AM_PM → 1 ≤ s.hr ∧ s.hr ≤ 12 ∧ s.min ≤ 59) ∧
  (s.entry_mode = ENTER → 1 ≤ s.hr ∧ s.hr ≤ 23 ∧ s.min ≤ 59) ∧
  (∀ c ∈ s.commits, 1 ≤ c.1 ∧ c.1 ≤ 23 ∧ c.2.1 ≤ 59 ∧ c.2.2 = 0)

/-- Intermediate invariant holding after the time-update (commit) section,
before the screen-update section runs. -/
def InvMid (s : LoopState) : Prop :=
  s.entry_mode < 3 ∧
  (s.mode = ERROR_MODE → s.e0 = '_' ∧ s.e1 = '_') ∧
  (s.entry_mode = MIN → 1 ≤ s.hr ∧ s.hr ≤ 12) ∧
  (s.entry_mode = AM_PM → 1 ≤ s.hr ∧ s.hr ≤ 12 ∧ s.min ≤ 59) ∧
  (∀ c ∈ s.commits, 1 ≤ c.1 ∧ c.1 ≤ 23 ∧ c.2.1 ≤ 59 ∧ c.2.2 = 0)

/-! ### Invariant preservation -/

/-- Time advancement alone preserves the invariant. -/
theorem inv_tick (dt : Nat) (s : LoopState) (h : Inv s) : Inv (tick dt s) := by
  obtain ⟨m, em, ix, a, b, hh, mm, t, u, cs⟩ := s
  exact h

set_option maxHeartbeats 1000000 in
/-- The key-handling section carries `Inv` to `InvPost`. -/
theorem inv_keyStep (k : Char) (s : LoopState) (h : Inv s) : InvPost (keyStep k s) := by
  obtain ⟨m, em, ix, a, b, hh, mm, t, u, cs⟩ := s
  obtain ⟨h1, h2, h3, h4, h5⟩ := h
  simp only [HOUR, MIN, AM_PM, ENTER, NORMAL_MODE, SET_MODE, ERROR_MODE] at *
  simp only [keyStep]
  split_ifs <;> (try simp only [hashStep]) <;> (try split_ifs) <;>
    (try simp_all [InvPost, HOUR, MIN, AM_PM, ENTER, NORMAL_MODE, SET_MODE, ERROR_MODE])
  all_goals (try omega)
  all_goals (try assumption)
  all_goals (try exact ⟨by omega, by omega, by assumption⟩)
  all_goals (refine ⟨?_, by assumption⟩ <;> omega)

set_option maxHeartbeats 1000000 in
/-- The commit section carries `InvPost` to `InvMid`. -/
theorem invPost_commitStep (s : LoopState) (h : InvPost s) : InvMid (commitStep s) := by
  obtain ⟨m, em, ix, a, b, hh, mm, t, u, cs⟩ := s
  obtain ⟨h1, h2, h3, h4, h5, h6⟩ := h
  simp only [HOUR, MIN, AM_PM, ENTER, NORMAL_MODE, SET_MODE, ERROR_MODE] at *
  simp only [commitStep]
  split_ifs <;>
    (try simp_all [InvMid, HOUR, MIN, AM_PM, ENTER, NORMAL_MODE, SET_MODE, ERROR_MODE])
  all_goals (try omega)
  all_goals (try assumption)
  all_goals (refine ⟨?_, by assumption⟩ <;> omega)

set_option maxHeartbeats 1000000 in
/-- The screen-update section restores `Inv` from `InvMid`. -/
theorem invMid_displayStep (s : LoopState) (h : InvMid s) : Inv (displayStep s) := by
  obtain ⟨m, em, ix, a, b, hh, mm, t, u, cs⟩ := s
  obtain ⟨h1, h2, h3, h4, h5⟩ := h
  simp only [HOUR, MIN, AM_PM, ENTER, NORMAL_MODE, SET_MODE, ERROR_MODE] at *
  simp only [displayStep]
  split_ifs <;>
    (try simp_all [Inv, HOUR, MIN, AM_PM, ENTER, NORMAL_MODE, SET_MODE, ERROR_MODE])
  all_goals (try omega)
  all_goals (try assumption)

/-- Every loop iteration preserves the invariant. -/
theorem inv_loopStep (k : Char) (dt : Nat) (s : LoopState) (h : Inv s) :
    Inv (loopStep k dt s) :=
  invMid_displayStep _ (invPost_commitStep _ (inv_keyStep k _ (inv_tick dt s h)))

/-- The start-up state satisfies the invariant. -/
theorem inv_init : Inv initState := by decide

/-- The invariant holds along every run. -/
theorem inv_run (inputs : List (Char × Nat)) (s : LoopState) (h : Inv s) :
    Inv (run inputs s) := by
  induction inputs generalizing s with
  | nil => exact h
  | cons i rest ih => exact ih _ (inv_loopStep i.1 i.2 s h)

/-! ### Single-iteration characterizations -/

/-- In Error mode an iteration ignores the key entirely: it either only
lets time pass, or, once the 2-second dwell has elapsed, performs the
recovery step (timer reset, mode stepped down to Set, cursor to slot 0,
display marked dirty). -/
theorem error_mode_step (k : Char) (dt : Nat) (s : LoopState) (h : Inv s)
    (he : s.mode = ERROR_MODE) :
    loopStep k dt s =
      if 2000 ≤ s.timerMs + dt then
        { s with timerMs := 0, mode := SET_MODE, index := 0, update_LCD := true }
      else tick dt s := by
  obtain ⟨m, em, ix, a, b, hh, mm, t, u, cs⟩ := s
  obtain ⟨h1, h2, h3, h4, h5⟩ := h
  simp only [HOUR, MIN, AM_PM, ENTER, NORMAL_MODE, SET_MODE, ERROR_MODE] at *
  subst he
  obtain ⟨hu, ha, hb⟩ := h2 rfl
  subst hu; subst ha; subst hb
  have hem : ¬(em = 3) := by omega
  clear h3 h4 h5
  simp [loopStep, keyStep, commitStep, displayStep, tick, hem,
    HOUR, MIN, AM_PM, ENTER, NORMAL_MODE, SET_MODE, ERROR_MODE]
  try split_ifs
  all_goals simp_all

/-- Characterization of a Hour-field commit attempt (a `'#'` press in Set
mode with the entry field at Hour). -/
theorem hash_hour_step (dt : Nat) (s : LoopState) (hm : s.mode = SET_MODE)
    (he : s.entry_mode = HOUR) :
    loopStep '#' dt s =
      if parseEntry s.e0 s.e1 < 1 ∨ 12 < parseEntry s.e0 s.e1 then
        { s with hr := parseEntry s.e0 s.e1, timerMs := 0, mode := ERROR_MODE,
                 update_LCD := false, e0 := '_', e1 := '_' }
      else
        { s with hr := parseEntry s.e0 s.e1, entry_mode := MIN,
                 timerMs := s.timerMs + dt, update_LCD := false, e0 := '_', e1 := '_' } := by
  obtain ⟨m, em, ix, a, b, hh, mm, t, u, cs⟩ := s
  simp only [SET_MODE] at hm
  simp only [HOUR] at he
  subst hm; subst he
  simp [loopStep, keyStep, hashStep, commitStep, displayStep, tick,
    HOUR, MIN, AM_PM, ENTER, NORMAL_MODE, SET_MODE, ERROR_MODE]
  split_ifs <;> simp_all <;> try omega

/-- Characterization of a Minute-field commit attempt: only the parsed
value's `> 59` check is applied. -/
theorem hash_min_step (dt : Nat) (s : LoopState) (hm : s.mode = SET_MODE)
    (he : s.entry_mode = MIN) :
    loopStep '#' dt s =
      if 59 < parseEntry s.e0 s.e1 then
        { s with min := parseEntry s.e0 s.e1, timerMs := 0, mode := ERROR_MODE,
                 update_LCD := false, e0 := '_', e1 := '_' }
      else
        { s with min := parseEntry s.e0 s.e1, entry_mode := AM_PM,
                 timerMs := s.timerMs + dt, update_LCD := false, e0 := '_', e1 := '_' } := by
  obtain ⟨m, em, ix, a, b, hh, mm, t, u, cs⟩ := s
  simp only [SET_MODE] at hm
  simp only [MIN] at he
  subst hm; subst he
  simp [loopStep, keyStep, hashStep, commitStep, displayStep, tick,
    HOUR, MIN, AM_PM, ENTER, NORMAL_MODE, SET_MODE, ERROR_MODE]
  split_ifs <;> simp_all <;> try omega

/-- Characterization of a failed AmPm-field commit attempt. -/
theorem hash_ampm_fail (dt : Nat) (s : LoopState) (hm : s.mode = SET_MODE)
    (he : s.entry_mode = AM_PM)
    (hbad : (s.e0 ≠ 'A' ∧ s.e0 ≠ 'P') ∨ s.e1 ≠ 'M') :
    loopStep '#' dt s =
      { s with timerMs := 0, mode := ERROR_MODE,
               update_LCD := false, e0 := '_', e1 := '_' } := by
  obtain ⟨m, em, ix, a, b, hh, mm, t, u, cs⟩ := s
  simp only [SET_MODE] at hm
  simp only [AM_PM] at he
  subst hm; subst he
  simp only at hbad
  simp [loopStep, keyStep, hashStep, commitStep, displayStep, tick, hbad,
    HOUR, MIN, AM_PM, ENTER, NORMAL_MODE, SET_MODE, ERROR_MODE]
  try split_ifs
  all_goals simp_all

/-- Key-map entries are never the no-key sentinel. -/
theorem keyAt_ne_x (r c : Nat) (hra : r < 4) (hc : c < 4) : keyAt r c ≠ 'x' := by
  interval_cases r <;> interval_cases c <;> decide

/-- Enumeration of the buffer alphabet. -/
theorem bufChar_elim (c : Char) (h : bufChar c) :
    c = '_' ∨ c = '0' ∨ c = '1' ∨ c = '2' ∨ c = '3' ∨ c = '4' ∨ c = '5' ∨
    c = '6' ∨ c = '7' ∨ c = '8' ∨ c = '9' ∨ c = 'A' ∨ c = 'P' ∨ c = 'M' := by
  simpa [bufChar] using h

/-- ASCII-code bounds for every buffer character. -/
theorem bufChar_code (c : Char) (h : bufChar c) :
    48 ≤ (c.toNat : Int) ∧ (c.toNat : Int) ≤ 95 := by
  rcases bufChar_elim c h with h'|h'|h'|h'|h'|h'|h'|h'|h'|h'|h'|h'|h'|h' <;>
    subst h' <;> decide

/-! ### Claim theorems -/

/-- C1 counterexample: with last accepted coordinate (0,0) and only 100 ms
elapsed since the last acceptance, a press of the DIFFERENT coordinate
(1,1) is swallowed (the scanner returns the sentinel 'x'), whereas the
claim requires every differing coordinate to be accepted regardless of the
timer and the mapped character '5' returned. -/
theorem C1_counterexample :
    (keypadScan (some (1, 1)) ⟨0, 0, 100⟩).1 = 'x' ∧
    keyAt 1 1 = '5' ∧ ('x' : Char) ≠ '5' := by decide

/-- C1 (amended): `keypadScan` swallows a matched key press if and only if
the matched coordinate equals the previously accepted one OR the elapsed
time since the last acceptance is below the 500 ms threshold; only when the
coordinate differs AND the threshold has elapsed does it record the new
coordinate, reset the elapsed timer to zero, and return the mapped
character. -/
theorem C1_debounce_policy (r c : Nat) (s : ScanState) (hra : r < 4) (hc : c < 4) :
    ((keypadScan (some (r, c)) s).1 = 'x' ↔
      ((s.last0 = (r : Int) ∧ s.last1 = (c : Int)) ∨ s.elapsed < debounce_time)) ∧
    (¬((s.last0 = (r : Int) ∧ s.last1 = (c : Int)) ∨ s.elapsed < debounce_time) →
      keypadScan (some (r, c)) s = (keyAt r c, ⟨(r : Int), (c : Int), 0⟩)) := by
  by_cases hcond : (s.last0 = (r : Int) ∧ s.last1 = (c : Int)) ∨ s.elapsed < debounce_time
  · constructor
    · simp [keypadScan, hcond]
    · intro hn
      exact absurd hcond hn
  · have hstep : keypadScan (some (r, c)) s =
        (keyAt r c, ⟨(r : Int), (c : Int), 0⟩) := by
      simp [keypadScan, hcond]
    constructor
    · rw [hstep]
      simpa [hcond] using keyAt_ne_x r c hra hc
    · intro _
      exact hstep

/-- C1 witness: a press of key (1,1) with a different last coordinate and
600 ms elapsed is accepted and returns the mapped character. -/
theorem C1_debounce_policy_witness :
    keypadScan (some (1, 1)) ⟨0, 0, 600⟩ = (keyAt 1 1, ⟨1, 1, 0⟩) :=
  (C1_debounce_policy 1 1 ⟨0, 0, 600⟩ (by decide) (by decide)).2 (by decide)

/-- C2: evaluating the state machine at the claim's failing input: entering
12:30 with AmPm buffer "AM" commits the 24-hour value 12, not the value 0
that the claim (and conventional 24-hour semantics) requires; the source
converts only the PM case and never maps hour 12 AM to 0. -/
theorem C2_hour12_am_commit :
    (run [('*', 0), ('1', 0), ('2', 0), ('#', 0), ('3', 0), ('0', 0), ('#', 0),
          ('A', 0), ('M', 0), ('#', 0)] initState).commits = [(12, 30, 0)] ∧
    (12 : Int) ≠ 0 := by decide

/-- C3 counterexample: after the reachable key sequence '*','1','3','#' the
failed hour value 13 IS stored in the working `hr` variable while the
machine sits in Error mode, contradicting the claim that a rejected value
is never held. -/
theorem C3_counterexample :
    (run [('*', 0), ('1', 0), ('3', 0), ('#', 0)] initState).hr = 13 ∧
    (run [('*', 0), ('1', 0), ('3', 0), ('#', 0)] initState).mode = ERROR_MODE := by decide

/-- C3 (amended): the working hour/minute variables may transiently hold a
rejected parsed value after a failed '#', but a rejected value never
reaches the clock: in every reachable state, every commit ever made carries
a 24-hour value derived from a validated 1..12 hour (hence in 1..23), a
minute that passed the `≤ 59` check, and second 0. -/
theorem C3_committed_time_validated (inputs : List (Char × Nat)) :
    ∀ c ∈ (run inputs initState).commits,
      1 ≤ c.1 ∧ c.1 ≤ 23 ∧ c.2.1 ≤ 59 ∧ c.2.2 = 0 :=
  (inv_run inputs initState inv_init).2.2.2.2

/-- C3 witness: the commit produced by the full 01:30 PM entry sequence
satisfies the validated bounds. -/
theorem C3_committed_time_validated_witness :
    1 ≤ (13 : Int) ∧ (13 : Int) ≤ 23 ∧ (30 : Int) ≤ 59 ∧ (0 : Int) = 0 :=
  C3_committed_time_validated
    [('*', 0), ('0', 0), ('1', 0), ('#', 0), ('3', 0), ('0', 0), ('#', 0),
     ('P', 0), ('M', 0), ('#', 0)]
    (13, 30, 0) (by decide)

/-- C4 counterexample: at 24-hour value 12 (noon) the render prints "AM",
whereas the claim requires "PM" for every hour ≥ 12. -/
theorem C4_counterexample :
    12 ≤ 12 ∧ ampmLabel 12 = "AM" ∧ "AM" ≠ "PM" := by decide

/-- C4 (amended): the displayed hour is the 24-hour value reduced mod 12
with 0 shown as 12 (always in 1..12 and congruent to the true hour), and
the AM/PM suffix is "PM" exactly when the 24-hour hour is STRICTLY greater
than 12, so hours 13..23 render as PM but hour 12 renders as AM. -/
theorem C4_normal_render (h : Nat) :
    (1 ≤ displayHour h ∧ displayHour h ≤ 12 ∧ displayHour h % 12 = h % 12) ∧
    (ampmLabel h = "PM" ↔ 12 < h) := by
  constructor
  · unfold displayHour
    split_ifs <;> omega
  · unfold ampmLabel
    split_ifs with hgt
    · simp [hgt]
    · constructor
      · intro habs
        exact absurd habs (by decide)
      · intro hlt
        exact absurd hlt hgt

/-- C5: from the initial Normal-mode state, the key sequence
'*','0','1','#','3','0','#','P','M','#' produces exactly one clock commit,
(13, 30, 0), and leaves the machine in Normal mode with the entry field
back at Hour. -/
theorem C5_end_to_end :
    (run [('*', 0), ('0', 0), ('1', 0), ('#', 0), ('3', 0), ('0', 0), ('#', 0),
          ('P', 0), ('M', 0), ('#', 0)] initState).commits = [(13, 30, 0)] ∧
    (run [('*', 0), ('0', 0), ('1', 0), ('#', 0), ('3', 0), ('0', 0), ('#', 0),
          ('P', 0), ('M', 0), ('#', 0)] initState).mode = NORMAL_MODE ∧
    (run [('*', 0), ('0', 0), ('1', 0), ('#', 0), ('3', 0), ('0', 0), ('#', 0),
          ('P', 0), ('M', 0), ('#', 0)] initState).entry_mode = HOUR := by decide

/-- C6: in any reachable Error-mode state, a loop iteration is entirely
independent of the scanned key (the key handler is bypassed), the entry
buffer, working hour/minute, entry field and commit history are unchanged,
and the mode can leave Error only because the 2-second dwell timer has
elapsed. -/
theorem C6_error_mode_ignores_keys (k : Char) (dt : Nat) (s : LoopState)
    (h : Inv s) (he : s.mode = ERROR_MODE) :
    loopStep k dt s = loopStep 'x' dt s ∧
    (loopStep k dt s).e0 = s.e0 ∧ (loopStep k dt s).e1 = s.e1 ∧
    (loopStep k dt s).hr = s.hr ∧ (loopStep k dt s).min = s.min ∧
    (loopStep k dt s).entry_mode = s.entry_mode ∧
    (loopStep k dt s).commits = s.commits ∧
    ((loopStep k dt s).mode ≠ ERROR_MODE → 2000 ≤ s.timerMs + dt) := by
  have hk := error_mode_step k dt s h he
  have hx := error_mode_step 'x' dt s h he
  rw [hk, hx]
  refine ⟨rfl, ?_, ?_, ?_, ?_, ?_, ?_, ?_⟩ <;> split_ifs <;>
    simp_all [tick, SET_MODE, ERROR_MODE]

/-- C6 witness: in a concrete Error-mode state a '5' press and no press
yield identical iterations. -/
theorem C6_error_mode_ignores_keys_witness :
    loopStep '5' 700 (⟨2, 0, 1, '_', '_', 13, 0, 0, false, []⟩ : LoopState) =
      loopStep 'x' 700 (⟨2, 0, 1, '_', '_', 13, 0, 0, false, []⟩ : LoopState) :=
  (C6_error_mode_ignores_keys '5' 700 _ (by decide) (by decide)).1

/-- C7: from any reachable Error-mode state, an iteration steps the mode
down to Set exactly when the 2-second dwell timer has elapsed — never
before (until then the iteration only lets time pass) — and at that
recovery step the cursor is reset to slot 0, both entry slots hold the
blank sentinel, the entry field is preserved and the timer is reset. -/
theorem C7_error_recovery_timing (k : Char) (dt : Nat) (s : LoopState)
    (h : Inv s) (he : s.mode = ERROR_MODE) :
    ((loopStep k dt s).mode = SET_MODE ↔ 2000 ≤ s.timerMs + dt) ∧
    (s.timerMs + dt < 2000 → loopStep k dt s = tick dt s) ∧
    (2000 ≤ s.timerMs + dt →
      (loopStep k dt s).mode = SET_MODE ∧ (loopStep k dt s).index = 0 ∧
      (loopStep k dt s).e0 = '_' ∧ (loopStep k dt s).e1 = '_' ∧
      (loopStep k dt s).entry_mode = s.entry_mode ∧
      (loopStep k dt s).timerMs = 0) := by
  have hk := error_mode_step k dt s h he
  obtain ⟨hu, ha, hb⟩ := h.2.1 he
  rw [hk]
  split_ifs with ht
  · refine ⟨by simp [SET_MODE, ht], ?_, ?_⟩
    · intro hlt
      exact absurd ht (by omega)
    · intro _
      exact ⟨by simp [SET_MODE], by simp, by simp [ha], by simp [hb], by simp, by simp⟩
  · refine ⟨?_, ?_, ?_⟩
    · simp [tick, he, ERROR_MODE, SET_MODE, ht]
    · intro _
      rfl
    · intro hge
      exact absurd hge ht

/-- C7 witness: a concrete Error-mode state with 2500 ms elapsed recovers
into Set mode with cursor 0 and blank slots. -/
theorem C7_error_recovery_timing_witness :
    (loopStep 'x' 2500 (⟨2, 0, 1, '_', '_', 13, 0, 0, false, []⟩ : LoopState)).mode = SET_MODE ∧
    (loopStep 'x' 2500 (⟨2, 0, 1, '_', '_', 13, 0, 0, false, []⟩ : LoopState)).index = 0 ∧
    (loopStep 'x' 2500 (⟨2, 0, 1, '_', '_', 13, 0, 0, false, []⟩ : LoopState)).e0 = '_' ∧
    (loopStep 'x' 2500 (⟨2, 0, 1, '_', '_', 13, 0, 0, false, []⟩ : LoopState)).e1 = '_' ∧
    (loopStep 'x' 2500 (⟨2, 0, 1, '_', '_', 13, 0, 0, false, []⟩ : LoopState)).entry_mode = 0 ∧
    (loopStep 'x' 2500 (⟨2, 0, 1, '_', '_', 13, 0, 0, false, []⟩ : LoopState)).timerMs = 0 :=
  (C7_error_recovery_timing 'x' 2500 _ (by decide) (by decide)).2.2 (by decide)

/-- C8: a '#' press whose field validation fails never writes to the
authoritative clock: the commit history is unchanged (the previously
committed time is preserved and nothing new is committed), the entry field
is left unchanged for retry, and the machine enters Error mode. -/
theorem C8_failed_validation_commits_nothing (dt : Nat) (s : LoopState)
    (h : Inv s) (hm : s.mode = SET_MODE)
    (hbad : ¬ fieldValid s.entry_mode s.e0 s.e1) :
    (loopStep '#' dt s).commits = s.commits ∧
    (loopStep '#' dt s).entry_mode = s.entry_mode ∧
    (loopStep '#' dt s).mode = ERROR_MODE := by
  have hem : s.entry_mode = HOUR ∨ s.entry_mode = MIN ∨ s.entry_mode = AM_PM := by
    have h1 := h.1
    simp only [HOUR, MIN, AM_PM]
    omega
  rcases hem with he | he | he
  · have hb : parseEntry s.e0 s.e1 < 1 ∨ 12 < parseEntry s.e0 s.e1 := by
      rw [he] at hbad
      simp [fieldValid, HOUR] at hbad
      omega
    rw [hash_hour_step dt s hm he, if_pos hb]
    exact ⟨by simp, by simp, by simp⟩
  · have hb : 59 < parseEntry s.e0 s.e1 := by
      rw [he] at hbad
      simp [fieldValid, HOUR, MIN] at hbad
      omega
    rw [hash_min_step dt s hm he, if_pos hb]
    exact ⟨by simp, by simp, by simp⟩
  · have hb : (s.e0 ≠ 'A' ∧ s.e0 ≠ 'P') ∨ s.e1 ≠ 'M' := by
      rw [he] at hbad
      simp [fieldValid, HOUR, MIN, AM_PM] at hbad
      tauto
    rw [hash_ampm_fail dt s hm he hb]
    exact ⟨by simp, by simp, by simp⟩

/-- C8 witness: the failed hour entry "13" leaves the commit history and
entry field untouched and enters Error mode. -/
theorem C8_failed_validation_commits_nothing_witness :
    (loopStep '#' 0 (⟨1, 0, 0, '1', '3', 0, 0, 0, false, []⟩ : LoopState)).commits = [] ∧
    (loopStep '#' 0 (⟨1, 0, 0, '1', '3', 0, 0, 0, false, []⟩ : LoopState)).entry_mode = 0 ∧
    (loopStep '#' 0 (⟨1, 0, 0, '1', '3', 0, 0, 0, false, []⟩ : LoopState)).mode = ERROR_MODE :=
  C8_failed_validation_commits_nothing 0 _ (by decide) (by decide) (by decide)

/-- C9: a Minute-field '#' commit applies only the `> 59` check to the
ASCII-decoded value: any buffer decoding to at most 59 is accepted as the
minute and advances the field to AmPm, and any buffer decoding above 59 is
rejected into Error mode — digit-ness of the characters is never checked. -/
theorem C9_minute_checks_only_upper_bound (dt : Nat) (s : LoopState)
    (hm : s.mode = SET_MODE) (he : s.entry_mode = MIN) :
    (parseEntry s.e0 s.e1 ≤ 59 →
      (loopStep '#' dt s).min = parseEntry s.e0 s.e1 ∧
      (loopStep '#' dt s).entry_mode = AM_PM ∧
      (loopStep '#' dt s).mode = SET_MODE) ∧
    (59 < parseEntry s.e0 s.e1 →
      (loopStep '#' dt s).mode = ERROR_MODE ∧
      (loopStep '#' dt s).min = parseEntry s.e0 s.e1) := by
  rw [hash_min_step dt s hm he]
  constructor
  · intro hle
    rw [if_neg (by omega)]
    exact ⟨by simp, by simp, by simp [hm]⟩
  · intro hgt
    rw [if_pos hgt]
    exact ⟨by simp, by simp⟩

/-- C9 witness: the letter-containing buffer '2','A' decodes to 37, passes
the minute check, is stored as minute 37 and advances the field to AmPm. -/
theorem C9_minute_checks_only_upper_bound_witness :
    (loopStep '#' 0 (⟨1, 1, 0, '2', 'A', 5, 0, 0, false, []⟩ : LoopState)).min = 37 ∧
    (loopStep '#' 0 (⟨1, 1, 0, '2', 'A', 5, 0, 0, false, []⟩ : LoopState)).entry_mode = AM_PM ∧
    (loopStep '#' 0 (⟨1, 1, 0, '2', 'A', 5, 0, 0, false, []⟩ : LoopState)).mode = SET_MODE :=
  (C9_minute_checks_only_upper_bound 0
    (⟨1, 1, 0, '2', 'A', 5, 0, 0, false, []⟩ : LoopState)
    (by decide) (by decide)).1 (by decide)

/-- C10 counterexample: in the reachable Set/Minute state whose buffer is
'0' followed by the blank sentinel, pressing '#' does NOT enter Error mode:
the blank decodes to 47, which passes the minute check, so minute 47 is
accepted and the field advances to AmPm — refuting the claim that a blank
slot always fails validation for every entry field. -/
theorem C10_counterexample :
    (run [('*', 0), ('0', 0), ('5', 0), ('#', 0), ('0', 0)] initState).entry_mode = MIN ∧
    (run [('*', 0), ('0', 0), ('5', 0), ('#', 0), ('0', 0)] initState).e0 = '0' ∧
    (run [('*', 0), ('0', 0), ('5', 0), ('#', 0), ('0', 0)] initState).e1 = '_' ∧
    (run [('*', 0), ('0', 0), ('5', 0), ('#', 0), ('0', 0), ('#', 0)] initState).mode ≠ ERROR_MODE ∧
    (run [('*', 0), ('0', 0), ('5', 0), ('#', 0), ('0', 0), ('#', 0)] initState).min = 47 ∧
    (run [('*', 0), ('0', 0), ('5', 0), ('#', 0), ('0', 0), ('#', 0)] initState).entry_mode = AM_PM := by
  decide

/-- C10 (amended): pressing '#' with a blank slot always enters Error mode
for the Hour and AmPm fields; for the Minute field it enters Error mode
except exactly when the second slot is blank and the first is '0' or '1'
(decoding to 47 resp. 57, which pass the `≤ 59` check). -/
theorem C10_blank_entry_validation (dt : Nat) (s : LoopState)
    (hm : s.mode = SET_MODE) (h0 : bufChar s.e0) (h1 : bufChar s.e1)
    (hblank : s.e0 = '_' ∨ s.e1 = '_') :
    (s.entry_mode = HOUR → (loopStep '#' dt s).mode = ERROR_MODE) ∧
    (s.entry_mode = AM_PM → (loopStep '#' dt s).mode = ERROR_MODE) ∧
    (s.entry_mode = MIN →
      ((loopStep '#' dt s).mode = ERROR_MODE ↔
        ¬(s.e1 = '_' ∧ (s.e0 = '0' ∨ s.e0 = '1')))) := by
  have hus : (('_'.toNat : Nat) : Int) = 95 := by decide
  have hc0 := bufChar_code _ h0
  have hc1 := bufChar_code _ h1
  refine ⟨?_, ?_, ?_⟩
  · intro he
    have hp : parseEntry s.e0 s.e1 < 1 ∨ 12 < parseEntry s.e0 s.e1 := by
      right
      unfold parseEntry
      rcases hblank with hb | hb <;> rw [hb, hus] <;> omega
    rw [hash_hour_step dt s hm he, if_pos hp]
    try simp
  · intro he
    have hb : (s.e0 ≠ 'A' ∧ s.e0 ≠ 'P') ∨ s.e1 ≠ 'M' := by
      rcases hblank with hb | hb
      · left
        rw [hb]
        exact ⟨by decide, by decide⟩
      · right
        rw [hb]
        decide
    rw [hash_ampm_fail dt s hm he hb]
    try simp
  · intro he
    rw [hash_min_step dt s hm he]
    by_cases hp : 59 < parseEntry s.e0 s.e1
    · rw [if_pos hp]
      constructor
      · intro _
        rintro ⟨hb1, hb0⟩
        rcases hb0 with h' | h' <;> rw [h', hb1] at hp <;> exact absurd hp (by decide)
      · intro _
        simp
    · rw [if_neg hp]
      constructor
      · intro hmode
        exfalso
        rw [hm] at hmode
        simp [SET_MODE, ERROR_MODE] at hmode
      · intro hneg
        exfalso
        apply hneg
        rcases hblank with hb | hb
        · exfalso
          apply hp
          unfold parseEntry
          rw [hb, hus]
          omega
        · refine ⟨hb, ?_⟩
          rcases bufChar_elim _ h0 with h'|h'|h'|h'|h'|h'|h'|h'|h'|h'|h'|h'|h'|h' <;>
            first
              | (left; exact h')
              | (right; exact h')
              | (exact absurd (show 59 < parseEntry s.e0 s.e1 by rw [h', hb]; decide) hp)

/-- C10 witness: the Minute field with buffer '0','_' is the exception: the
blank-containing buffer passes validation instead of entering Error mode. -/
theorem C10_blank_entry_validation_witness :
    (loopStep '#' 0 (⟨1, 1, 1, '0', '_', 5, 0, 0, false, []⟩ : LoopState)).mode = ERROR_MODE ↔
      ¬(('_' : Char) = '_' ∧ (('0' : Char) = '0' ∨ ('0' : Char) = '1')) :=
  (C10_blank_entry_validation 0 (⟨1, 1, 1, '0', '_', 5, 0, 0, false, []⟩ : LoopState)
    (by decide) (by decide) (by decide) (by decide)).2.2 (by decide)

end LCDClock
